import Mathlib

/-
Verification development for the SofaScore football-match scraper
(src/sofascore_scraper.py).  The extraction core of the scraper is
shallowly embedded below: Python strings are Lean Strings (worked on as
lists of characters), Python ints are Lean Ints, dictionaries produced by
the upstream JSON API are embedded as typed structures whose fields carry
the value the corresponding chain of dict.get calls resolves to, and the
Selenium page is embedded as a passive data structure recording what each
probe of the page would observe.  Calendar dates are embedded as day
numbers (one Nat per day, consecutive numbers one day apart, day 0 a
Monday); datetime string round-trips are an injective rendering.
-/

/- ------------------------------------------------------------------
   Python string primitives used by the scraper: truthiness, lower,
   strip, split, substring membership and int() coercion.
   ------------------------------------------------------------------ -/

/-- Characters Python str.strip and the regex class backslash-s treat as
whitespace (ASCII range, which covers every input the scraper handles). -/
def pyWs (c : Char) : Bool :=
  c == ' ' || c == '\t' || c == '\n' || c == '\r' || c == '\x0b' || c == '\x0c'

/-- str.strip on a character list: drop whitespace from both ends. -/
def pyStripChars (cs : List Char) : List Char :=
  ((cs.dropWhile (fun c => pyWs c)).reverse.dropWhile (fun c => pyWs c)).reverse

/-- str.strip on a String. -/
def pyStrip (s : String) : String :=
  String.mk (pyStripChars s.toList)

/-- ASCII str.lower on one character. -/
def pyLowerChar (c : Char) : Char :=
  if 65 ≤ c.toNat ∧ c.toNat ≤ 90 then Char.ofNat (c.toNat + 32) else c

/-- ASCII str.lower. -/
def pyLower (s : String) : String :=
  String.mk (s.toList.map pyLowerChar)

/-- Whether the first list is a prefix of the second (Boolean, by chars). -/
def strLeads : List Char → List Char → Bool
  | [], _ => true
  | _ :: _, [] => false
  | c :: cs, d :: ds => c == d && strLeads cs ds

/-- Python substring membership needle in hay, on character lists. -/
def pyInChars (needle : List Char) : List Char → Bool
  | [] => needle.isEmpty
  | c :: rest => strLeads needle (c :: rest) || pyInChars needle rest

/-- Python substring membership needle in hay, on Strings. -/
def pyIn (needle hay : String) : Bool :=
  pyInChars needle.toList hay.toList

/-- The worker of pySplit, structurally recursive on a fuel argument:
every step consumes at least one character (a match of the non-empty
separator consumes its whole length), so fuel equal to the text length
is never exhausted. -/
def pySplitF (sep : List Char) : Nat → List Char → List (List Char)
  | _, [] => [[]]
  | 0, cs => [cs]
  | fuel + 1, c :: rest =>
    if sep ≠ [] ∧ strLeads sep (c :: rest) = true then
      [] :: pySplitF sep fuel ((c :: rest).drop sep.length)
    else
      match pySplitF sep fuel rest with
      | [] => [[c]]
      | p :: ps => (c :: p) :: ps

/-- Python str.split(sep) for a non-empty separator (the scraper only
splits on the separators newline, hash-id-colon and slash-id-colon). -/
def pySplit (sep : List Char) (cs : List Char) : List (List Char) :=
  pySplitF sep cs.length cs

/-- Numeric value of a run of ASCII digits (what int() returns on the
digit groups the score regex captures). -/
def natOfDigits (ds : List Char) : Nat :=
  ds.foldl (fun a c => a * 10 + (c.toNat - 48)) 0

/-- Python int(s) on a string: strip whitespace, optional sign, digits;
None when the string is not parseable as an integer. -/
def pyIntOfStr (s : String) : Option Int :=
  match pyStripChars s.toList with
  | [] => Option.none
  | '-' :: ds =>
    if ds ≠ [] ∧ ds.all Char.isDigit then some (-(natOfDigits ds : Int)) else Option.none
  | '+' :: ds =>
    if ds ≠ [] ∧ ds.all Char.isDigit then some ((natOfDigits ds : Int)) else Option.none
  | cs =>
    if cs.all Char.isDigit then some ((natOfDigits cs : Int)) else Option.none

/-- A Python value as the result classifier may receive it: an integer,
a string, or None. -/
inductive PyVal where
  | int : Int → PyVal
  | str : String → PyVal
  | none : PyVal
deriving DecidableEq

/-- Python truthiness of such a value. -/
def pyTruthy : PyVal → Bool
  | .int n => n != 0
  | .str s => s != ""
  | .none => false

/-- Python int(v): some integer, or Option.none when int() would raise. -/
def pyToInt : PyVal → Option Int
  | .int n => some n
  | .str s => pyIntOfStr s
  | .none => Option.none

/- ------------------------------------------------------------------
   _determine_result (src/sofascore_scraper.py lines 406-419).
   home = int(home_goals) if home_goals else 0, likewise away; compare;
   any exception in the coercions yields the empty marker.  The three
   outcome strings are the Chinese tags for WIN, LOSS and DRAW.
   ------------------------------------------------------------------ -/

/-- _determine_result: WIN / LOSS / DRAW from the home perspective, or
the empty marker when a truthy operand fails int() coercion. -/
def determine_result (home_goals away_goals : PyVal) : String :=
  let h := if pyTruthy home_goals then pyToInt home_goals else some 0
  let a := if pyTruthy away_goals then pyToInt away_goals else some 0
  match h, a with
  | some home, some away =>
    if home > away then "胜"
    else if home < away then "负"
    else "平"
  | _, _ => ""

/- ------------------------------------------------------------------
   The canonical MatchRecord (the dict both parsers construct) and the
   raw API event.  The raw event embeds the chains of dict.get calls in
   _parse_api_event: each field holds the value the corresponding chain
   resolves to, with the default of the final .get as the structure
   default (missing keys and missing nested dicts both resolve to it).
   roundNum and eventId hold the rendered form of the fetched value (the
   code only ever interpolates them into strings), seasonName holds
   season.get of name with year as fallback already resolved.
   ------------------------------------------------------------------ -/

structure RawEvent where
  statusType : String := ""
  eventId : String := ""
  homeTeam : String := ""
  awayTeam : String := ""
  homeTeamId : String := ""
  awayTeamId : String := ""
  homeCurrent : Int := 0
  awayCurrent : Int := 0
  homePeriod1 : Int := 0
  awayPeriod1 : Int := 0
  tournamentName : String := ""
  seasonName : String := ""
  roundNum : String := ""
  startTimestamp : Nat := 0
  slug : String := ""
deriving DecidableEq

/-- The canonical match record both parsers return.  home_ht and away_ht
are Option Int: the API parser stores integers, the DOM parser stores
the empty placeholder (Option.none here, the empty string in the code). -/
structure MatchRecord where
  match_id : String
  date : String
  time : String
  weekday : String
  competition : String
  season : String
  round : String
  venue : String
  opponent : String
  home_team : String
  away_team : String
  home_team_id : String
  away_team_id : String
  home_goals : Int
  away_goals : Int
  home_ht : Option Int
  away_ht : Option Int
  team_goals : Int
  opponent_goals : Int
  result : String
  status : String
  match_url : String
deriving DecidableEq

/-- Two-digit zero padding for strftime of hours and minutes. -/
def pad2 (n : Nat) : String :=
  if n < 10 then "0" ++ toString n else toString n

/-- datetime.fromtimestamp(ts).strftime of hours colon minutes, with the
process local timezone embedded as UTC (no claim depends on the zone). -/
def fmt_hm (ts : Nat) : String :=
  pad2 (ts / 3600 % 24) ++ ":" ++ pad2 (ts / 60 % 60)

/- ------------------------------------------------------------------
   _parse_api_event (lines 229-311): drop events whose status type is
   not finished, otherwise build the record with defaulting getters.
   The per-event try/except has nothing left to catch in the typed
   embedding (every getter chain is already total).
   ------------------------------------------------------------------ -/

/-- _parse_api_event: one API event to an optional MatchRecord. -/
def parse_api_event (e : RawEvent) (date_s wk : String) : Option MatchRecord :=
  if e.statusType ≠ "finished" then Option.none
  else
    let time_s := if e.startTimestamp ≠ 0 then fmt_hm e.startTimestamp else ""
    let url := if e.slug ≠ "" then
      "https://www.sofascore.com/" ++ e.slug ++ "#id:" ++ e.eventId else ""
    some {
      match_id := e.eventId
      date := date_s
      time := time_s
      weekday := wk
      competition := e.tournamentName
      season := e.seasonName
      round := e.roundNum
      venue := ""
      opponent := ""
      home_team := e.homeTeam
      away_team := e.awayTeam
      home_team_id := e.homeTeamId
      away_team_id := e.awayTeamId
      home_goals := e.homeCurrent
      away_goals := e.awayCurrent
      home_ht := some e.homePeriod1
      away_ht := some e.awayPeriod1
      team_goals := e.homeCurrent
      opponent_goals := e.awayCurrent
      result := determine_result (PyVal.int e.homeCurrent) (PyVal.int e.awayCurrent)
      status := "finished"
      match_url := url }

/- ------------------------------------------------------------------
   The score regex of _parse_match_element: re.search of the pattern
   digits, optional whitespace, a dash or colon, optional whitespace,
   digits.  Digit runs are greedy; since a digit can match neither the
   whitespace class nor the separator class, greedy matching never needs
   backtracking here, so maximal munch below is exact.  re.search takes
   the leftmost starting position that matches.
   ------------------------------------------------------------------ -/

/-- Match the score pattern at the head of the text. -/
def scoreAt (cs : List Char) : Option (Nat × Nat) :=
  let d1 := cs.takeWhile Char.isDigit
  if d1.isEmpty then Option.none
  else
    match (cs.dropWhile Char.isDigit).dropWhile (fun c => pyWs c) with
    | [] => Option.none
    | sep :: r2 =>
      if sep = '-' ∨ sep = ':' then
        let d2 := (r2.dropWhile (fun c => pyWs c)).takeWhile Char.isDigit
        if d2.isEmpty then Option.none
        else some (natOfDigits d1, natOfDigits d2)
      else Option.none

/-- re.search of the score pattern: first position, left to right, where
the pattern matches. -/
def findScore : List Char → Option (Nat × Nat)
  | [] => Option.none
  | c :: rest =>
    match scoreAt (c :: rest) with
    | some p => some p
    | Option.none => findScore rest

/- ------------------------------------------------------------------
   _parse_match_element (lines 313-379): a page element is its href
   attribute (Option String: get_attribute may return null) and its
   visible text.
   ------------------------------------------------------------------ -/

structure Elem where
  href : Option String
  text : String
deriving DecidableEq

/-- _parse_match_element: one DOM element to an optional MatchRecord. -/
def parse_match_element (el : Elem) (date_s wk : String) : Option MatchRecord :=
  let href := el.href.getD ""
  let mid :=
    if pyIn "#id:" href then String.mk ((pySplit "#id:".toList href.toList).getLastD [])
    else if pyIn "/id:" href then String.mk ((pySplit "/id:".toList href.toList).getLastD [])
    else ""
  let t := pyStripChars el.text.toList
  if t.isEmpty then Option.none
  else
    let lines := pySplit ['\n'] t
    if lines.length < 2 then Option.none
    else
      let home_team := String.mk (pyStripChars (lines.headD []))
      let away_team := String.mk (pyStripChars (lines.getLastD []))
      let goals := (findScore t).getD (0, 0)
      some {
        match_id := mid
        date := date_s
        time := ""
        weekday := wk
        competition := ""
        season := ""
        round := ""
        venue := ""
        opponent := ""
        home_team := home_team
        away_team := away_team
        home_team_id := ""
        away_team_id := ""
        home_goals := (goals.1 : Int)
        away_goals := (goals.2 : Int)
        home_ht := Option.none
        away_ht := Option.none
        team_goals := (goals.1 : Int)
        opponent_goals := (goals.2 : Int)
        result := determine_result (PyVal.int (goals.1 : Int)) (PyVal.int (goals.2 : Int))
        status := "finished"
        match_url := href }

/- ------------------------------------------------------------------
   _parse_json_match_data (lines 381-404): parsed JSON as a tagged
   union.  A leaf that _parse_api_event can read as an event dict is
   embedded as PyData.ev; any other scalar is PyData.scalar (on such an
   item every getter chain of the parser raises, the per-event except
   returns None, so the item is skipped).
   ------------------------------------------------------------------ -/

inductive PyData where
  | dict : List (String × PyData) → PyData
  | list : List PyData → PyData
  | ev : RawEvent → PyData
  | scalar : PyData

/-- The value of the key events of a dict, when that value is a list
(the isinstance check of find_events); otherwise nothing. -/
def eventsOf : List (String × PyData) → List PyData
  | [] => []
  | (k, v) :: rest =>
    if k = "events" then
      match v with
      | .list l => l
      | _ => []
    else eventsOf rest

mutual

/-- find_events: collect the events lists of a dict, then recurse into
every value of the dict and every item of a list. -/
def find_events : PyData → List PyData
  | .dict entries => eventsOf entries ++ findInEntries entries
  | .list items => findInList items
  | .ev _ => []
  | .scalar => []

def findInEntries : List (String × PyData) → List PyData
  | [] => []
  | (_, v) :: rest => find_events v ++ findInEntries rest

def findInList : List PyData → List PyData
  | [] => []
  | x :: rest => find_events x ++ findInList rest

end

/-- _parse_api_event applied to one collected JSON item: only an event
dict yields a record, any other shape raises inside the parser and is
caught to None. -/
def parse_event_data (d : PyData) (date_s wk : String) : Option MatchRecord :=
  match d with
  | .ev e => parse_api_event e date_s wk
  | _ => Option.none

/-- _parse_json_match_data: collect every nested events list, parse each
collected item, keep the records. -/
def parse_json_match_data (data : PyData) (date_s wk : String) : List MatchRecord :=
  (find_events data).filterMap (fun d => parse_event_data d date_s wk)

/- ------------------------------------------------------------------
   The page as the extraction strategies observe it.  apiEvents is the
   events array of the fetched scheduled-events JSON (Option.none when
   the fetch fails, returns a falsy body or a body without an events
   key); selectorResults lists, per CSS selector of event_selectors in
   order, what find_elements returns (a selector that raises is its
   empty list); scriptData is the embedded state blob once parsed
   (Option.none when no blob is found or json.loads fails).
   ------------------------------------------------------------------ -/

structure Page where
  apiEvents : Option (List PyData) := Option.none
  selectorResults : List (List Elem) := []
  scriptData : Option PyData := Option.none

/-- Calendar dates are day numbers; day 0 renders as Monday, matching
datetime.weekday with Monday as 0. -/
def weekday_names : List String :=
  ["Monday", "Tuesday", "Wednesday", "Thursday", "Friday", "Saturday", "Sunday"]

/-- _get_weekday_chinese on a day number. -/
def weekday_of_day (d : Nat) : String :=
  weekday_names.getD (d % 7) ""

/-- strftime of the date itself: an injective rendering of the day
number (no claim inspects the format of the rendered date). -/
def render_date (d : Nat) : String :=
  toString d

/-- _extract_from_api (lines 202-227): parse every event of the fetched
events array, keep the records; empty on any fetch or shape failure. -/
def extract_from_api (page : Page) (date_s wk : String) : List MatchRecord :=
  match page.apiEvents with
  | some events => events.filterMap (fun d => parse_event_data d date_s wk)
  | Option.none => []

/-- _extract_from_script_data (lines 168-200): probe for the embedded
blob and run the JSON walk on it; empty when nothing is found. -/
def extract_from_script_data (page : Page) (date_s wk : String) : List MatchRecord :=
  match page.scriptData with
  | some data => parse_json_match_data data date_s wk
  | Option.none => []

/-- The selector loop of _extract_matches_from_page: first selector
whose find_elements result is non-empty wins. -/
def first_nonempty : List (List Elem) → List Elem
  | [] => []
  | l :: ls => if l.isEmpty then first_nonempty ls else l

/-- _extract_matches_from_page (lines 122-166): try the selectors; with
no matched element fall back to the embedded-data strategy, otherwise
parse the matched elements (elements that fail to parse are skipped). -/
def extract_matches_from_page (page : Page) (d : Nat) : List MatchRecord :=
  let wk := weekday_of_day d
  let elems := first_nonempty page.selectorResults
  if elems.isEmpty then extract_from_script_data page (render_date d) wk
  else elems.filterMap (fun el => parse_match_element el (render_date d) wk)

/-- The strategy chain of scrape_date (lines 440-451): the API strategy
first, the page-based chain only when it returned nothing. -/
def scrape_date_page (page : Page) (d : Nat) : List MatchRecord :=
  let ms := extract_from_api page (render_date d) (weekday_of_day d)
  if ms.isEmpty then extract_matches_from_page page d else ms

/-- scrape_date (lines 421-458): navigation or page-level failure is
caught and yields the empty list (the Except.error case). -/
def scrape_date (pg : Except Unit Page) (d : Nat) : List MatchRecord :=
  match pg with
  | .ok page => scrape_date_page page d
  | .error _ => []

/-- scrape_date_range (lines 460-487): the while loop from the start
day to the end day inclusive, extending one accumulated list. -/
def scrape_date_range (pages : Nat → Except Unit Page) (current endDay : Nat) :
    List MatchRecord :=
  if current ≤ endDay then
    scrape_date (pages current) current ++ scrape_date_range pages (current + 1) endDay
  else []
termination_by endDay + 1 - current

/-- The sequence of days the while loop of scrape_date_range visits. -/
def date_loop (current endDay : Nat) : List Nat :=
  if current ≤ endDay then current :: date_loop (current + 1) endDay
  else []
termination_by endDay + 1 - current

/- ------------------------------------------------------------------
   League filter (lines 29-36 and 489-506).
   ------------------------------------------------------------------ -/

def TOP5_LEAGUES : List String :=
  ["Premier League", "LaLiga", "La Liga", "Bundesliga", "Serie A", "Ligue 1"]

/-- _is_top5_league: falsy name is rejected; otherwise the name is
lowercased and stripped and matched against each allow-listed league,
lowercased, as substring in either direction. -/
def is_top5_league (competition : String) : Bool :=
  if competition = "" then false
  else
    let cl := pyStrip (pyLower competition)
    TOP5_LEAGUES.any (fun league => pyIn (pyLower league) cl || pyIn cl (pyLower league))

/- ------------------------------------------------------------------
   Comparison definitions written from the words of the spec claims
   (not from the source), used to settle the ordering and filtering
   claims, and concrete fixtures.
   ------------------------------------------------------------------ -/

/-- Claim-modelled: the strategy chain as claim C1 words it, Direct API
first, then the Embedded-Data strategy, then the DOM strategy, the
first non-empty result winning. -/
def claim_order_scrape (page : Page) (d : Nat) : List MatchRecord :=
  let api := extract_from_api page (render_date d) (weekday_of_day d)
  if api.isEmpty then
    let emb := extract_from_script_data page (render_date d) (weekday_of_day d)
    if emb.isEmpty then
      (first_nonempty page.selectorResults).filterMap
        (fun el => parse_match_element el (render_date d) (weekday_of_day d))
    else emb
  else api

/-- The amended chain: Direct API first; when it is empty the DOM
strategy is taken whenever some selector yields elements (its parsed
records stand even when empty), and the Embedded-Data strategy is
consulted only when no selector yields any element. -/
def amended_order_scrape (page : Page) (d : Nat) : List MatchRecord :=
  let api := extract_from_api page (render_date d) (weekday_of_day d)
  if api.isEmpty then
    let elems := first_nonempty page.selectorResults
    if elems.isEmpty then extract_from_script_data page (render_date d) (weekday_of_day d)
    else elems.filterMap (fun el => parse_match_element el (render_date d) (weekday_of_day d))
  else api

/-- Claim-modelled: the league filter as claim C5 words it, lowercasing
both sides but never stripping the competition name. -/
def is_top5_claim (c : String) : Bool :=
  if c = "" then false
  else TOP5_LEAGUES.any (fun l => pyIn (pyLower l) (pyLower c) || pyIn (pyLower c) (pyLower l))

/-- The amended characterization of the league filter: the competition
name is lowercased and stripped of surrounding whitespace before the
symmetric substring test against each lowercased allow-listed league. -/
def is_top5_amended (c : String) : Bool :=
  decide (c ≠ "" ∧ ∃ l ∈ TOP5_LEAGUES,
    pyIn (pyLower l) (pyStrip (pyLower c)) = true ∨ pyIn (pyStrip (pyLower c)) (pyLower l) = true)

/-- A finished raw API event (the Arsenal v Chelsea event of the spec
scenarios). -/
def arsenalEvent : RawEvent :=
  { statusType := "finished"
    eventId := "111"
    homeTeam := "Arsenal"
    awayTeam := "Chelsea"
    homeCurrent := 2
    awayCurrent := 1
    homePeriod1 := 1
    awayPeriod1 := 0
    slug := "arsenal-chelsea" }

/-- The DOM element of the spec scenario. -/
def bayernElem : Elem :=
  { href := Option.none, text := "Bayern\n3 - 0\nDortmund" }

/-- A page on which the API strategy yields nothing while both the DOM
strategy and the Embedded-Data strategy would yield a record. -/
def pageC1 : Page :=
  { apiEvents := Option.none
    selectorResults := [[bayernElem]]
    scriptData := some (PyData.dict [("events", PyData.list [PyData.ev arsenalEvent])]) }

/-- A page whose API strategy yields the Arsenal record. -/
def okPage : Page :=
  { apiEvents := some [PyData.ev arsenalEvent] }

/-- A per-day fetch in which day 2 fails entirely and every other day
succeeds through the API strategy. -/
def pagesEx : Nat → Except Unit Page :=
  fun d => if d = 2 then Except.error () else Except.ok okPage

/- ------------------------------------------------------------------
   Helper lemmas shared by the claim theorems.
   ------------------------------------------------------------------ -/

/-- On integer operands the classifier is the plain three-way compare:
Python truthiness only sends 0 to 0. -/
theorem determine_result_int (m n : Int) :
    determine_result (PyVal.int m) (PyVal.int n) =
      if m > n then "胜" else if m < n then "负" else "平" := by
  unfold determine_result
  by_cases hm : m = 0 <;> by_cases hn : n = 0 <;>
    simp [pyTruthy, pyToInt, hm, hn]

/-- One unfolding step of the while loop of scrape_date_range. -/
theorem scrape_date_range_step (pages : Nat → Except Unit Page) (s e : Nat) :
    scrape_date_range pages s e =
      if s ≤ e then scrape_date (pages s) s ++ scrape_date_range pages (s + 1) e
      else [] := by
  rw [scrape_date_range]

/-- One unfolding step of the visited-day sequence. -/
theorem date_loop_step (s e : Nat) :
    date_loop s e = if s ≤ e then s :: date_loop (s + 1) e else [] := by
  rw [date_loop]

/-- The visited days are exactly the consecutive days from the start
day to the end day. -/
theorem date_loop_eq_range (s e : Nat) :
    date_loop s e = List.range' s (e + 1 - s) := by
  rw [date_loop_step]
  by_cases h : s ≤ e
  · rw [if_pos h]
    have h2 : e + 1 - s = (e + 1 - (s + 1)) + 1 := by omega
    rw [date_loop_eq_range (s + 1) e, h2, List.range'_succ]
  · rw [if_neg h]
    have h2 : e + 1 - s = 0 := by omega
    rw [h2]
    rfl
termination_by e + 1 - s

/-- The accumulated run-wide list is the concatenation, day by day, of
what scrape_date returns for each visited day. -/
theorem scrape_range_join (pages : Nat → Except Unit Page) (s e : Nat) :
    scrape_date_range pages s e =
      ((date_loop s e).map (fun x => scrape_date (pages x) x)).flatten := by
  rw [scrape_date_range_step, date_loop_step]
  by_cases h : s ≤ e
  · rw [if_pos h, if_pos h, List.map_cons, List.flatten_cons,
      scrape_range_join pages (s + 1) e]
  · rw [if_neg h, if_neg h]
    rfl
termination_by e + 1 - s

/- ------------------------------------------------------------------
   Claim theorems.
   ------------------------------------------------------------------ -/

/-- C2: for every pair of integers the result classifier returns WIN
(the tag 胜) exactly when home exceeds away, LOSS (负) exactly when away
exceeds home, and DRAW (平) exactly when they are equal. -/
theorem C2_classifier_trichotomy (m n : Int) :
    (determine_result (PyVal.int m) (PyVal.int n) = "胜" ↔ m > n) ∧
    (determine_result (PyVal.int m) (PyVal.int n) = "负" ↔ m < n) ∧
    (determine_result (PyVal.int m) (PyVal.int n) = "平" ↔ m = n) := by
  rw [determine_result_int]
  rcases lt_trichotomy m n with h | h | h
  · have h1 : ¬ m > n := by omega
    rw [if_neg h1, if_pos h]
    refine ⟨⟨fun hx => absurd hx (by decide), fun hx => absurd hx (by omega)⟩,
      ⟨fun _ => h, fun _ => rfl⟩,
      ⟨fun hx => absurd hx (by decide), fun hx => absurd (hx ▸ h) (by omega)⟩⟩
  · have h1 : ¬ m > n := by omega
    have h2 : ¬ m < n := by omega
    rw [if_neg h1, if_neg h2]
    exact ⟨⟨fun hx => absurd hx (by decide), fun hx => absurd hx (by omega)⟩,
      ⟨fun hx => absurd hx (by decide), fun hx => absurd hx h2⟩,
      ⟨fun _ => h, fun _ => rfl⟩⟩
  · rw [if_pos h]
    exact ⟨⟨fun _ => h, fun _ => rfl⟩,
      ⟨fun hx => absurd hx (by decide), fun hx => absurd hx (by omega)⟩,
      ⟨fun hx => absurd hx (by decide), fun hx => absurd (hx ▸ h) (by omega)⟩⟩

/-- C3 counterexample: both operands are unparseable as integers (the
empty string, on which int() raises), yet the classifier returns the
DRAW tag instead of the empty marker, because a falsy operand is
coerced to 0 before int() is ever called. -/
theorem C3_counterexample_empty_string :
    pyToInt (PyVal.str "") = Option.none ∧
    determine_result (PyVal.str "") (PyVal.str "") = "平" ∧
    determine_result (PyVal.str "") (PyVal.str "") ≠ "" := by
  decide

/-- C3 amended: whenever either operand is truthy and fails int()
coercion, the classifier returns the empty marker (and, being a total
function of the embedded values, never raises); falsy operands are
instead coerced to 0. -/
theorem C3_truthy_unparseable_empty (hg ag : PyVal)
    (hfail : (pyTruthy hg = true ∧ pyToInt hg = Option.none) ∨
             (pyTruthy ag = true ∧ pyToInt ag = Option.none)) :
    determine_result hg ag = "" := by
  unfold determine_result
  rcases hfail with ⟨ht, hn⟩ | ⟨ht, hn⟩
  · simp [ht, hn]
  · rcases hh : (if pyTruthy hg then pyToInt hg else some 0) with _ | v <;>
      simp [hh, ht, hn]

/-- C3 witness: a truthy non-numeric string against a number yields the
empty marker. -/
theorem C3_witness_abc :
    determine_result (PyVal.str "abc") (PyVal.int 1) = "" :=
  C3_truthy_unparseable_empty (PyVal.str "abc") (PyVal.int 1)
    (Or.inl ⟨by decide, by decide⟩)

/-- C4: the API event parser drops every event whose status type is not
finished, and every record it does return carries status finished. -/
theorem C4_finished_only (e : RawEvent) (ds wk : String) :
    (e.statusType ≠ "finished" → parse_api_event e ds wk = Option.none) ∧
    (∀ r, parse_api_event e ds wk = some r → r.status = "finished") := by
  constructor
  · intro h
    simp [parse_api_event, h]
  · intro r hr
    unfold parse_api_event at hr
    split at hr
    · exact absurd hr (by simp)
    · injection hr with h
      subst h
      rfl

/-- C5 counterexample: the name liga followed by a space is accepted by
the source filter (stripping makes it a substring of LaLiga) but is
rejected by the claim's lowercase-only characterization, which never
strips the competition name. -/
theorem C5_counterexample_trailing_space :
    is_top5_league "liga " = true ∧ is_top5_claim "liga " = false := by
  decide

/-- C5 amended: the filter accepts a competition name exactly when,
after lowercasing it and stripping its surrounding whitespace, some
allow-listed league name is a substring of it or it is a substring of
that league name; the empty name is always rejected, and the named
examples behave as the claim lists them. -/
theorem C5_filter_characterization :
    (∀ c, is_top5_league c = is_top5_amended c) ∧
    is_top5_league "premier league" = true ∧
    is_top5_league "PREMIER LEAGUE 2024/25" = true ∧
    is_top5_league "La Liga" = true ∧
    is_top5_league "Championship" = false ∧
    is_top5_league "" = false := by
  refine ⟨fun c => ?_, by decide, by decide, by decide, by decide, by decide⟩
  by_cases hc : c = ""
  · simp [is_top5_league, is_top5_amended, hc]
  · rw [Bool.eq_iff_iff]
    simp [is_top5_league, is_top5_amended, hc, List.any_eq_true]

/-- C1 counterexample: on a page where the API strategy yields nothing
and both the DOM strategy and the Embedded-Data strategy would yield a
record, scrape_date keeps the DOM result, not what the claimed order
Direct API, then Embedded-Data, then DOM would return. -/
theorem C1_counterexample_order :
    scrape_date_page pageC1 0 ≠ claim_order_scrape pageC1 0 := by
  decide

/-- C1 amended: the strategies are consulted in the order Direct API,
then DOM, then Embedded-Data: a non-empty API result wins, otherwise
the DOM parse is taken whenever some selector yields elements, and the
Embedded-Data strategy runs only when no selector yields any element. -/
theorem C1_amended_order (page : Page) (d : Nat) :
    scrape_date_page page d = amended_order_scrape page d := by
  unfold scrape_date_page amended_order_scrape extract_matches_from_page
  rfl

/-- C6: the orchestrator concatenates every visited day's records into
one run-wide list, and a day whose fetch raises or yields nothing
contributes the empty list while every other day's records survive. -/
theorem C6_single_day_failure (pages : Nat → Except Unit Page) (s e d : Nat)
    (hfail : pages d = Except.error () ∨ scrape_date (pages d) d = []) :
    scrape_date_range pages s e =
      ((date_loop s e).map
        (fun x => if x = d then [] else scrape_date (pages x) x)).flatten := by
  have hd : scrape_date (pages d) d = [] := by
    rcases hfail with h | h
    · rw [h]
      rfl
    · exact h
  rw [scrape_range_join]
  have hmap : (date_loop s e).map (fun x => scrape_date (pages x) x) =
      (date_loop s e).map (fun x => if x = d then [] else scrape_date (pages x) x) := by
    apply List.map_congr_left
    intro x _
    by_cases hx : x = d
    · rw [if_pos hx, hx, hd]
    · rw [if_neg hx]
  rw [hmap]

/-- C6 witness: a three-day range whose middle day errors still returns
the other days' records, the failed day contributing nothing. -/
theorem C6_witness_three_days :
    scrape_date_range pagesEx 1 3 =
      ((date_loop 1 3).map
        (fun x => if x = 2 then [] else scrape_date (pagesEx x) x)).flatten :=
  C6_single_day_failure pagesEx 1 3 2 (Or.inl rfl)

/-- C7: every record either parser returns mirrors the home and away
goals into team_goals and opponent_goals and leaves the perspective
fields venue and opponent empty. -/
theorem C7_perspective_fields (e : RawEvent) (el : Elem) (ds wk : String) :
    (∀ r, parse_api_event e ds wk = some r →
      r.team_goals = r.home_goals ∧ r.opponent_goals = r.away_goals ∧
      r.venue = "" ∧ r.opponent = "") ∧
    (∀ r, parse_match_element el ds wk = some r →
      r.team_goals = r.home_goals ∧ r.opponent_goals = r.away_goals ∧
      r.venue = "" ∧ r.opponent = "") := by
  constructor
  · intro r hr
    unfold parse_api_event at hr
    split at hr
    · exact absurd hr (by simp)
    · injection hr with h
      subst h
      exact ⟨rfl, rfl, rfl, rfl⟩
  · intro r hr
    simp only [parse_match_element] at hr
    split at hr
    · exact absurd hr (by simp)
    · split at hr
      · exact absurd hr (by simp)
      · injection hr with h
        subst h
        exact ⟨rfl, rfl, rfl, rfl⟩

/-- C8: on the element whose text is Bayern, newline, 3 - 0, newline,
Dortmund, the DOM parser recovers home goals 3, away goals 0 and the
WIN tag; in general every record the DOM parser returns carries exactly
the first match of the score pattern in the stripped element text, both
goals defaulting to 0 when the pattern matches nowhere. -/
theorem C8_dom_scores :
    ((parse_match_element bayernElem "2025-12-05" "Friday").map
      (fun r => (r.home_team, r.away_team, r.home_goals, r.away_goals, r.result)) =
      some ("Bayern", "Dortmund", (3 : Int), (0 : Int), "胜")) ∧
    (∀ el ds wk r, parse_match_element el ds wk = some r →
      r.home_goals = (((findScore (pyStripChars el.text.toList)).getD (0, 0)).1 : Int) ∧
      r.away_goals = (((findScore (pyStripChars el.text.toList)).getD (0, 0)).2 : Int)) := by
  constructor
  · decide
  · intro el ds wk r hr
    simp only [parse_match_element] at hr
    split at hr
    · exact absurd hr (by simp)
    · split at hr
      · exact absurd hr (by simp)
      · injection hr with h
        subst h
        exact ⟨rfl, rfl⟩

/-- C9: the range iteration is a total function (it is defined by
well-founded recursion on the remaining days), visits exactly the
consecutive days from the start day to the end day once each in
increasing order, performs one scrape_date per visited day, and with
the start day past the end day visits nothing and returns nothing. -/
theorem C9_range_iteration (pages : Nat → Except Unit Page) (s e : Nat) :
    date_loop s e = List.range' s (e + 1 - s) ∧
    scrape_date_range pages s e =
      ((date_loop s e).map (fun x => scrape_date (pages x) x)).flatten ∧
    (e < s → date_loop s e = [] ∧ scrape_date_range pages s e = []) := by
  refine ⟨date_loop_eq_range s e, scrape_range_join pages s e, fun hlt => ?_⟩
  have h : ¬ s ≤ e := by omega
  constructor
  · rw [date_loop_step, if_neg h]
  · rw [scrape_date_range_step, if_neg h]

/-- C10: the DOM parser discards every element whose visible text is
empty or whose stripped text has fewer than two lines, so a single-line
element never contributes a record. -/
theorem C10_short_text_discarded (el : Elem) (ds wk : String)
    (h : el.text = "" ∨ (pySplit ['\n'] (pyStripChars el.text.toList)).length < 2) :
    parse_match_element el ds wk = Option.none := by
  rcases h with h | h
  · unfold parse_match_element
    rw [h]
    rfl
  · simp only [parse_match_element]
    by_cases ht : (pyStripChars el.text.toList).isEmpty = true
    · rw [if_pos ht]
    · rw [if_neg ht, if_pos h]

/-- C10 witness: a one-line element is discarded. -/
theorem C10_witness_single_line :
    parse_match_element { href := Option.none, text := "Bayern" } "2025-12-05" "Friday" =
      Option.none :=
  C10_short_text_discarded { href := Option.none, text := "Bayern" } "2025-12-05" "Friday"
    (Or.inr (by decide))
